import Mathlib

/-!
Verification of the asyncProgramming repository: a shallow embedding of the
synchronous weather service demo (functions get_weather_data, handle_client,
run_weather_server, test_client and the main driver from the README) and of
the notebook cells (async_programming_guide.ipynb) that the claims concern.

Python values on the wire are modelled as JSON trees; raised exceptions as
Except; the socket is modelled by the payload handed to the handler
(None standing for bytes that json.loads rejects) and by the pair
(bytes sent back, socket closed).
-/

/-- JSON values in the shapes the demo produces and consumes:
strings, integers and objects (Python dicts with string keys). -/
inductive Json where
  | str (s : String)
  | num (n : Int)
  | obj (fields : List (String × Json))

/-- The Python exceptions the demo code can raise. -/
inductive PyErr where
  | jsonDecodeError
  | keyError (k : String)
  | typeError
  | valueError (msg : String)
deriving Repr, DecidableEq

/-- Python subscripting `j[k]` on a value returned by json.loads: a dict
yields the value at the key or raises KeyError; subscripting a non-dict
with a string raises TypeError. -/
def Json.subscript (j : Json) (k : String) : Except PyErr Json :=
  match j with
  | .obj fields =>
      match fields.lookup k with
      | some v => .ok v
      | none => .error (.keyError k)
  | _ => .error .typeError

/-- Escaping of one character inside a JSON string literal, as json.dumps
renders it for the characters the demo uses. -/
def escapeChar (c : Char) : String :=
  if c = '"' then "\\\""
  else if c = '\\' then "\\\\"
  else if c = '\n' then "\\n"
  else if c = '\t' then "\\t"
  else if c = '\r' then "\\r"
  else String.singleton c

/-- Escaping of a whole JSON string body. -/
def escapeString (s : String) : String :=
  String.join (s.toList.map escapeChar)

mutual

/-- Python json.dumps with default separators, over the JSON shapes above:
objects print as \x7b"k": v, ...\x7d, strings quoted and escaped, integers
in decimal. -/
def Json.dumps : Json → String
  | .str s => "\"" ++ escapeString s ++ "\""
  | .num n => toString n
  | .obj fields => "\x7b" ++ dumpsFields fields ++ "\x7d"

/-- The comma-separated field list of a dumped JSON object. -/
def dumpsFields : List (String × Json) → String
  | [] => ""
  | [p] => "\"" ++ escapeString p.fst ++ "\": " ++ Json.dumps p.snd
  | p :: ps =>
      "\"" ++ escapeString p.fst ++ "\": " ++ Json.dumps p.snd ++ ", " ++ dumpsFields ps

end

/-- get_weather_data(city): after a simulated 2-second delay it returns the
dict \x7b"city": city, "temperature": 20, "conditions": "sunny"\x7d. The
sleep has no effect on the value; its duration is get_weather_delay. -/
def get_weather_data (city : Json) : Json :=
  .obj [("city", city), ("temperature", .num 20), ("conditions", .str "sunny")]

/-- The time.sleep(2) in get_weather_data, in seconds. -/
def get_weather_delay : Nat := 2

/-- handle_client(client_socket): reads the request, parses it with
json.loads (the argument none models bytes json.loads rejects, some j a
payload parsing to j), subscripts the result with "city", builds the
weather dict, sends json.dumps of it and closes the socket. The normal
result is (bytes sent, socket closed); any exception propagates, since the
function contains no try/except. -/
def handle_client (parsed : Option Json) : Except PyErr (String × Bool) :=
  match parsed with
  | none => .error .jsonDecodeError
  | some req =>
      match req.subscript "city" with
      | .error e => .error e
      | .ok city => .ok ((get_weather_data city).dumps, true)

/-- The body of run_weather_server's accept loop for one accepted
connection: it calls handle_client directly, with no surrounding
try/except, so whatever handle_client raises propagates to the loop. -/
def run_weather_server_step (p : Option Json) : Except PyErr (String × Bool) :=
  handle_client p

/-- run_weather_server's `while True` accept loop, run against a finite
trace of incoming connections (each given by its parsed payload): every
connection is handled to completion before the next is accepted; an
uncaught exception aborts the loop. Returns the responses served in order,
and the exception that killed the server, if any. -/
def run_weather_server_loop : List (Option Json) → List (String × Bool) × Option PyErr
  | [] => ([], none)
  | c :: cs =>
      match run_weather_server_step c with
      | .error e => ([], some e)
      | .ok r =>
          let rest := run_weather_server_loop cs
          (r :: rest.fst, rest.snd)

/-- The number of connections run_weather_server serves to completion on a
given trace of incoming connections. -/
def servedCount (conns : List (Option Json)) : Nat :=
  (run_weather_server_loop conns).fst.length

/-- Tests whether a request payload makes handle_client raise: bytes that
are not valid JSON, or a JSON value without a "city" entry. -/
def request_fails : Option Json → Bool
  | none => true
  | some j => !(j.subscript "city").isOk

/-- The request test_client(city) sends: json.dumps(\x7b"city": city\x7d),
as a JSON value before encoding. -/
def client_request (city : String) : Json :=
  .obj [("city", .str city)]

/-- The JSON value of the response the server produces for the city a
client sent: handle_client dumps exactly get_weather_data(city). -/
def server_response (city : String) : Json :=
  get_weather_data (.str city)

/-- Threads of the performance demonstration driver. -/
inductive ThreadId where
  | mainThread
  | serverThread
deriving Repr, DecidableEq

/-- The threads the main driver spawns: exactly one, the background thread
running run_weather_server (threading.Thread(target=run_weather_server)).
The five test_client calls run on the main thread itself. -/
def main_spawned_threads : List ThreadId := [ThreadId.serverThread]

/-- The thread on which the i-th accepted connection is handled:
handle_client is invoked inline inside run_weather_server's accept loop,
which runs entirely on the single server thread, so every connection is
handled there. -/
def connection_handler_thread : Nat → ThreadId :=
  fun _ => ThreadId.serverThread

/-- A (host, port) TCP address. -/
structure Address where
  host : String
  port : Nat
deriving Repr, DecidableEq

/-- run_weather_server binds its listening socket with the literal
server.bind(('localhost', 8000)); the function takes no argument and
reads no flag or configuration. -/
def server_bind_address : Address :=
  ⟨"localhost", 8000⟩

/-- What test_client(city) does on the network: the address of its
connect call (the literal ('localhost', 8000)) and the bytes it sends
(json.dumps(\x7b"city": city\x7d)). -/
structure ClientAction where
  addr : Address
  payload : String
deriving Repr, DecidableEq

/-- test_client(city), whose only input is the city name. -/
def test_client_action (city : String) : ClientAction :=
  ⟨⟨"localhost", 8000⟩, (client_request city).dumps⟩

/-- The cities the main driver requests, in order. -/
def demo_cities : List String :=
  ["London", "Paris", "New York", "Tokyo", "Berlin"]

/-- A notebook code cell, summarised by the module-level names it binds
(imports included) and the non-builtin names its code uses. -/
structure Cell where
  defines : List String
  references : List String
deriving Repr, DecidableEq

/-- The 14 code cells of async_programming_guide.ipynb, in notebook order.
Builtins (print, range, isinstance, enumerate, zip, list, len, and the
builtin exception classes) are omitted from references. -/
def notebook_cells : List Cell :=
  [ ⟨["asyncio", "simple_coroutine"], ["asyncio", "simple_coroutine"]⟩,
    ⟨["fetch_data", "process_data"], ["asyncio", "fetch_data", "process_data"]⟩,
    ⟨["main"], ["asyncio", "fetch_data", "main"]⟩,
    ⟨["long_operation", "task_demo"], ["asyncio", "long_operation", "task_demo"]⟩,
    ⟨["task_operations_demo"], ["asyncio", "long_operation", "task_operations_demo"]⟩,
    ⟨["might_fail", "error_handling_demo"], ["asyncio", "might_fail", "error_handling_demo"]⟩,
    ⟨["AsyncResource", "context_manager_demo"], ["asyncio", "AsyncResource", "context_manager_demo"]⟩,
    ⟨["AsyncDatabase", "database_demo"], ["asyncio", "AsyncDatabase", "database_demo"]⟩,
    ⟨["AsyncDataStream", "iterator_demo"], ["asyncio", "AsyncDataStream", "iterator_demo"]⟩,
    ⟨["async_range", "generator_demo"], ["asyncio", "async_range", "generator_demo"]⟩,
    ⟨["aiohttp", "fetch_url", "fetch_multiple_urls"], ["aiohttp", "asyncio", "fetch_url"]⟩,
    ⟨["web", "handle_get", "init_app"], ["web", "asyncio", "handle_get"]⟩,
    ⟨["demo_performance_patterns"], ["asyncio", "demo_performance_patterns"]⟩,
    ⟨["time", "functools", "async_timer", "monitored_operation"],
      ["time", "functools", "asyncio", "async_timer", "monitored_operation"]⟩ ]

/-- A cell is self-contained when every name it uses is bound by the cell
itself. -/
def self_contained (c : Cell) : Bool :=
  c.references.all (fun n => c.defines.contains n)

/-- The claim that every code cell of the notebook is self-contained. -/
def all_cells_self_contained : Prop :=
  ∀ c ∈ notebook_cells, self_contained c = true

/-- Every cell's references resolved against the cells up to and including
it: what actually makes each cell runnable in notebook order. -/
def cells_use_only_prior_defs : Bool :=
  (List.range notebook_cells.length).all (fun i =>
    ((notebook_cells.drop i).headD ⟨[], []⟩).references.all (fun n =>
      ((notebook_cells.take (i + 1)).map Cell.defines).flatten.contains n))

/-- might_fail(succeed=True) from the error-handling cell: sleeps, raises
ValueError("Operation failed!") when succeed is falsy, else returns
"Success!". -/
def might_fail (succeed : Bool) : Except PyErr String :=
  if succeed then .ok "Success!" else .error (.valueError "Operation failed!")

/-- The AsyncDataStream async iterator class of the notebook; the source's
field named end is called stop here (end is reserved in Lean). __init__
sets current to start. -/
structure AsyncDataStream where
  start : Int
  stop : Int
  current : Int
deriving Repr, DecidableEq

/-- AsyncDataStream(start, end): __init__ stores both bounds and sets
current = start. -/
def AsyncDataStream.init (start stop : Int) : AsyncDataStream :=
  ⟨start, stop, start⟩

/-- __anext__: while current < end it sleeps, returns current and
increments it; otherwise it raises StopAsyncIteration (none). -/
def AsyncDataStream.anext (s : AsyncDataStream) : Option (Int × AsyncDataStream) :=
  if s.current < s.stop then some (s.current, ⟨s.start, s.stop, s.current + 1⟩) else none

/-- Draining the stream by iterating __anext__ at most fuel times,
stopping at StopAsyncIteration. Each successful __anext__ strictly
decreases stop - current, so any fuel of at least (stop - current).toNat
drains the stream completely (toListFuel_stable below). -/
def AsyncDataStream.toListFuel : Nat → AsyncDataStream → List Int
  | 0, _ => []
  | fuel + 1, s =>
      match s.anext with
      | none => []
      | some (v, s1) => v :: AsyncDataStream.toListFuel fuel s1

/-- The full sequence an async for loop drains from the stream, iterating
__anext__ until StopAsyncIteration. -/
def AsyncDataStream.toList (s : AsyncDataStream) : List Int :=
  AsyncDataStream.toListFuel (s.stop - s.current).toNat s

/-- The async_range(start, end) generator of the notebook: it yields each i
of range(start, end) in order, i.e. start, start+1, ..., end-1. -/
def async_range (start stop : Int) : List Int :=
  (List.range (stop - start).toNat).map (fun i : Nat => start + (i : Int))

/-- Claim C1: for every client request whose payload is the JSON object
\x7b"city": c\x7d, handle_client sends back exactly the JSON encoding of
\x7b"city": c, "temperature": 20, "conditions": "sunny"\x7d — the fixed
payload with the requested city echoed — and then closes the client
socket. -/
theorem handle_client_echoes_fixed_payload (c : Json) :
    handle_client (some (Json.obj [("city", c)])) =
      Except.ok ((Json.obj [("city", c), ("temperature", Json.num 20),
        ("conditions", Json.str "sunny")]).dumps, true) :=
  rfl

/-- Claim C2: the weather server performs no error handling: on every
request payload that is not valid JSON or lacks a "city" key,
handle_client raises an exception, and the accept loop of
run_weather_server, which has no try/except, lets the same exception
propagate. -/
theorem handle_client_invalid_request_raises (p : Option Json)
    (h : request_fails p = true) :
    ∃ e : PyErr, handle_client p = Except.error e ∧
      run_weather_server_step p = Except.error e := by
  cases p with
  | none => exact ⟨.jsonDecodeError, rfl, rfl⟩
  | some j =>
      cases hsub : j.subscript "city" with
      | error e =>
          refine ⟨e, ?_, ?_⟩ <;>
            simp [handle_client, run_weather_server_step, hsub]
      | ok v =>
          exfalso
          simp [request_fails, hsub, Except.isOk, Except.toBool] at h

/-- Witness for claim C2 at the concrete payload \x7b\x7d, a JSON object
without a "city" key. -/
theorem handle_client_invalid_request_raises_witness :
    request_fails (some (Json.obj [])) = true ∧
      ∃ e : PyErr, handle_client (some (Json.obj [])) = Except.error e ∧
        run_weather_server_step (some (Json.obj [])) = Except.error e :=
  ⟨rfl, handle_client_invalid_request_raises (some (Json.obj [])) rfl⟩

/-- Claim C3 counterexample: the accept loop of run_weather_server does
not complete after serving a single client connection — on a trace of two
well-formed connections it serves both of them, so the count of served
connections is not at most one. -/
theorem server_loop_not_single_shot :
    ¬ servedCount [some (Json.obj [("city", Json.str "London")]),
        some (Json.obj [("city", Json.str "Paris")])] ≤ 1 := by
  decide

/-- Claim C3 amended: run_weather_server accepts connections in an
unbounded `while True` loop, handling each accepted connection to
completion (including get_weather_data's simulated latency) before
accepting the next; on any finite trace of well-formed incoming
connections it serves every one of them, and the loop never exits
normally. -/
theorem server_loop_serves_every_connection (conns : List (Option Json))
    (h : ∀ c ∈ conns, (handle_client c).isOk = true) :
    servedCount conns = conns.length ∧
      (run_weather_server_loop conns).snd = none := by
  induction conns with
  | nil => exact ⟨rfl, rfl⟩
  | cons c cs ih =>
      have hc := h c (List.mem_cons_self c cs)
      obtain ⟨r, hr⟩ : ∃ r, handle_client c = Except.ok r := by
        cases hh : handle_client c with
        | ok r => exact ⟨r, rfl⟩
        | error e => rw [hh] at hc; simp [Except.isOk, Except.toBool] at hc
      obtain ⟨ih1, ih2⟩ := ih (fun x hx => h x (List.mem_cons_of_mem c hx))
      refine ⟨?_, ?_⟩
      · simp [servedCount, run_weather_server_loop, run_weather_server_step, hr]
        exact ih1
      · simp [run_weather_server_loop, run_weather_server_step, hr]
        exact ih2

/-- Witness for the amended claim C3 on a concrete trace of two
well-formed connections: both are served and the loop survives. -/
theorem server_loop_serves_every_connection_witness :
    (∀ c ∈ [some (client_request "London"), some (client_request "Paris")],
        (handle_client c).isOk = true) ∧
      servedCount [some (client_request "London"),
          some (client_request "Paris")] = 2 ∧
      (run_weather_server_loop [some (client_request "London"),
          some (client_request "Paris")]).snd = none :=
  ⟨by decide,
    server_loop_serves_every_connection
      [some (client_request "London"), some (client_request "Paris")] (by decide)⟩

/-- The reading of claim C4 on the weather demo: no composition of the
demo's operations returns an original, client-sent input — in particular
no city a client sends is recovered unchanged from the server's
response. -/
def demo_has_no_roundtrip : Prop :=
  ∀ city : String,
    (server_response city).subscript "city" ≠ Except.ok (Json.str city)

/-- Claim C4 counterexample: the round trip does exist — for the concrete
city "London", reading the "city" field of the server's response recovers
exactly the city the client sent. -/
theorem demo_roundtrip_refuted : ¬ demo_has_no_roundtrip :=
  fun h => h "London" rfl

/-- Claim C4 amended: the weather demo does exhibit one round-trip
invariant — for every city, the "city" field of the server's response is
exactly the city the client sent, the response being the dump of
get_weather_data applied to it; beyond this echo the response carries only
the fixed temperature and conditions. -/
theorem city_roundtrip (city : String) :
    (server_response city).subscript "city" = Except.ok (Json.str city) ∧
      handle_client (some (client_request city)) =
        Except.ok ((server_response city).dumps, true) :=
  ⟨rfl, rfl⟩

/-- The reading of claim C5: each incoming client request is handled on
its own dedicated thread, so distinct requests are handled on distinct
threads. -/
def thread_per_request : Prop :=
  ∀ i j : Nat, i ≠ j → connection_handler_thread i ≠ connection_handler_thread j

/-- Claim C5 counterexample: requests 0 and 1 are handled on the same
thread — handle_client runs inline in the accept loop on the single server
thread — so there is no dedicated thread per request. -/
theorem thread_per_request_refuted : ¬ thread_per_request :=
  fun h => h 0 1 (by decide) rfl

/-- Claim C5 amended: the comparison example spawns exactly one thread,
the background server thread, and handles every client request on that
same single blocking thread, with no pooling and no per-request thread. -/
theorem single_server_thread :
    main_spawned_threads = [ThreadId.serverThread] ∧
      ∀ i j : Nat, connection_handler_thread i = connection_handler_thread j :=
  ⟨rfl, fun _ _ => rfl⟩

/-- Claim C6: the demo's only external interface is a hardcoded loopback
TCP address: the server binds to ('localhost', 8000), test_client connects
to the very same address whatever city it is asked for, and neither
function takes any other input that could change the address. -/
theorem hardcoded_loopback_address :
    server_bind_address = ⟨"localhost", 8000⟩ ∧
      ∀ city : String, (test_client_action city).addr = server_bind_address :=
  ⟨rfl, fun _ => rfl⟩

/-- Claim C7 counterexample: the third code cell (async def main) is not
self-contained — it references fetch_data, defined two cells earlier, and
asyncio, imported in the first cell. -/
theorem notebook_cell_not_self_contained : ¬ all_cells_self_contained :=
  fun h =>
    absurd (h ⟨["main"], ["asyncio", "fetch_data", "main"]⟩ (by decide)) (by decide)

/-- Claim C7 amended: the notebook's code cells are not all
self-contained — definitions flow between cells (the event-loop cell uses
fetch_data from an earlier cell, task_operations_demo uses long_operation,
and nearly every cell uses the asyncio import of the first cell) — but
each cell references only names defined or imported by itself or an
earlier cell, so the cells run in notebook order. -/
theorem notebook_cells_use_prior_cells : cells_use_only_prior_defs = true := by
  decide

/-- Claim C8: might_fail raises ValueError("Operation failed!") if and
only if succeed is false, returns "Success!" if and only if succeed is
true, and can produce no other exception and no other return value. -/
theorem might_fail_spec (succeed : Bool) :
    (might_fail succeed = Except.error (PyErr.valueError "Operation failed!") ↔
        succeed = false) ∧
      (might_fail succeed = Except.ok "Success!" ↔ succeed = true) ∧
      (∀ e : PyErr, might_fail succeed = Except.error e →
        e = PyErr.valueError "Operation failed!") ∧
      (∀ r : String, might_fail succeed = Except.ok r → r = "Success!") := by
  cases succeed <;> simp [might_fail]

/-- Witness for claim C8 at both concrete arguments. -/
theorem might_fail_spec_witness :
    might_fail true = Except.ok "Success!" ∧
      might_fail false = Except.error (PyErr.valueError "Operation failed!") :=
  ⟨(might_fail_spec true).2.1.mpr rfl, (might_fail_spec false).1.mpr rfl⟩

/-- Auxiliary for claim C9: draining an AsyncDataStream with any
sufficient fuel yields the arithmetic sequence current, current+1, ...,
stop-1 — in particular the drain is insensitive to the exact fuel. -/
theorem toListFuel_stable (fuel : Nat) (s : AsyncDataStream)
    (h : (s.stop - s.current).toNat ≤ fuel) :
    AsyncDataStream.toListFuel fuel s =
      (List.range (s.stop - s.current).toNat).map
        (fun i : Nat => s.current + (i : Int)) := by
  induction fuel generalizing s with
  | zero =>
      have h0 : (s.stop - s.current).toNat = 0 := by omega
      rw [h0]
      simp [AsyncDataStream.toListFuel]
  | succ n ih =>
      by_cases hc : s.current < s.stop
      · have hm : (s.stop - s.current).toNat = (s.stop - (s.current + 1)).toNat + 1 := by
          omega
        have hn : (s.stop - (s.current + 1)).toNat ≤ n := by omega
        have hrec := ih ⟨s.start, s.stop, s.current + 1⟩ hn
        have step : AsyncDataStream.toListFuel (n + 1) s =
            s.current :: AsyncDataStream.toListFuel n ⟨s.start, s.stop, s.current + 1⟩ := by
          simp [AsyncDataStream.toListFuel, AsyncDataStream.anext, hc]
        rw [step, hrec, hm, List.range_succ_eq_map, List.map_cons, List.map_map]
        refine List.cons_eq_cons.mpr ⟨by push_cast; ring, ?_⟩
        refine List.map_congr_left ?_
        intro a _
        simp only [Function.comp]
        push_cast
        ring
      · have h0 : (s.stop - s.current).toNat = 0 := by omega
        rw [h0]
        simp [AsyncDataStream.toListFuel, AsyncDataStream.anext, hc]

/-- Claim C9: for every pair of integers start and end, iterating
AsyncDataStream(start, end) yields exactly the sequence the async
generator async_range(start, end) yields — the integers start, start+1,
..., end-1 in increasing order — and the empty sequence when
start >= end. -/
theorem stream_matches_async_range (start stop : Int) :
    (AsyncDataStream.init start stop).toList = async_range start stop ∧
      (start ≥ stop → (AsyncDataStream.init start stop).toList = []) := by
  have hmain : (AsyncDataStream.init start stop).toList = async_range start stop := by
    exact toListFuel_stable _ _ (le_refl _)
  refine ⟨hmain, fun hge => ?_⟩
  rw [hmain]
  unfold async_range
  have h0 : (stop - start).toNat = 0 := by omega
  rw [h0]
  rfl

/-- Witness for claim C9 at the concrete bounds of the notebook's demo
(1, 4) and at an empty pair (5, 3). -/
theorem stream_matches_async_range_witness :
    (AsyncDataStream.init 1 4).toList = async_range 1 4 ∧
      (AsyncDataStream.init 5 3).toList = [] ∧
      async_range 1 4 = [1, 2, 3] :=
  ⟨(stream_matches_async_range 1 4).1,
    (stream_matches_async_range 5 3).2 (by decide), by decide⟩

/-- Claim C10: get_weather_data is deterministic and its "temperature" and
"conditions" fields are independent of the requested city: every result
carries temperature 20 and conditions "sunny", the two fields agree across
any two calls, and two calls with the same city return identical
dictionaries. -/
theorem get_weather_data_constant_fields (c1 c2 : Json) :
    (get_weather_data c1).subscript "temperature" = Except.ok (Json.num 20) ∧
      (get_weather_data c1).subscript "conditions" = Except.ok (Json.str "sunny") ∧
      (get_weather_data c1).subscript "temperature" =
        (get_weather_data c2).subscript "temperature" ∧
      (get_weather_data c1).subscript "conditions" =
        (get_weather_data c2).subscript "conditions" ∧
      (c1 = c2 → get_weather_data c1 = get_weather_data c2) :=
  ⟨rfl, rfl, rfl, rfl, fun h => by rw [h]⟩

/-- Witness for claim C10 at the concrete cities of the demo driver. -/
theorem get_weather_data_constant_fields_witness :
    (get_weather_data (Json.str "London")).subscript "temperature" =
        Except.ok (Json.num 20) ∧
      get_weather_data (Json.str "London") = get_weather_data (Json.str "London") :=
  ⟨(get_weather_data_constant_fields (Json.str "London") (Json.str "Paris")).1,
    (get_weather_data_constant_fields (Json.str "London") (Json.str "London")).2.2.2.2 rfl⟩
